import Mathlib

/-
Verification of the batch-orchestration core of the novel-scraping bot
(src/bot.py together with src/lncrawl/core/app.py).

The embedding models:
  - the persisted failure-classification ledger of NovelBot
    (processed / nullcon / genfail sets and the errors map),
  - the per-job pipeline status of App.start_download and App.bind_books,
  - the worker function scrape_logic_worker,
  - the supervisor NovelBot.process_novel (classification and delivery
    routing, including the userbot threshold and artifact removal),
  - the batch filter and dispatch loop of NovelBot.process_queue,
  - the administrative reset NovelBot.cmd_reset over the in-memory sets
    and the persisted files.
-/

namespace Bot

/-- Bool test: the first list occurs at the front of the second
(character-wise equality). Used to model Python substring search. -/
def charsAgree : List Char → List Char → Bool
  | [], _ => true
  | _ :: _, [] => false
  | a :: as, b :: bs => a == b && charsAgree as bs

/-- Bool test: the needle occurs contiguously somewhere in the haystack.
Models the Python expression needle in haystack for strings. -/
def charsSub (needle : List Char) : List Char → Bool
  | [] => charsAgree needle []
  | b :: bs => charsAgree needle (b :: bs) || charsSub needle bs

/-- Python substring containment: needle in haystack. -/
def strContains (haystack needle : String) : Bool :=
  charsSub needle.data haystack.data

/-- The substring-based classifier of NovelBot.process_novel (bot.py line 533):
an exception message is classified as null content when it contains one of the
three fixed substrings. -/
def isNullconMsg (m : String) : Bool :=
  strContains m "list index out of range" ||
  strContains m "IndexError" ||
  strContains m "No chapters extracted"

/-- The in-memory ledger of NovelBot: the processed, nullcon and genfail sets
and the errors map (bot.py lines 161-164). -/
structure Ledger where
  processed : Finset String
  nullcon : Finset String
  genfail : Finset String
  errors : String → Option String

/-- The ledger at startup with no persisted data. -/
def emptyLedger : Ledger :=
  { processed := ∅, nullcon := ∅, genfail := ∅, errors := fun _ => none }

/-- NovelBot.save_success (bot.py lines 217-229): add to processed, delete the
errors entry, and remove from nullcon and genfail. -/
def save_success (L : Ledger) (url : String) : Ledger :=
  { processed := insert url L.processed
    nullcon := L.nullcon.erase url
    genfail := L.genfail.erase url
    errors := fun k => if k = url then none else L.errors k }

/-- NovelBot.save_error (bot.py lines 246-248): overwrite the errors entry. -/
def save_error (L : Ledger) (url msg : String) : Ledger :=
  { L with errors := fun k => if k = url then some msg else L.errors k }

/-- The null-content classification of NovelBot.process_novel
(bot.py lines 534-535): only adds the url to nullcon. -/
def addNullcon (L : Ledger) (url : String) : Ledger :=
  { L with nullcon := insert url L.nullcon }

/-- The generation-failed classification of NovelBot.process_novel
(bot.py lines 527-528): only adds the url to genfail. -/
def addGenfail (L : Ledger) (url : String) : Ledger :=
  { L with genfail := insert url L.genfail }

/-- The three ledger operations named by the mutual-exclusivity claim. -/
inductive LedgerOp
  | success (url : String)
  | nocontent (url : String)
  | genfailed (url : String)

/-- Apply one ledger operation. -/
def applyOp (L : Ledger) : LedgerOp → Ledger
  | LedgerOp.success u => save_success L u
  | LedgerOp.nocontent u => addNullcon L u
  | LedgerOp.genfailed u => addGenfail L u

/-- Apply a sequence of ledger operations in order. -/
def applyOps (L : Ledger) (ops : List LedgerOp) : Ledger :=
  ops.foldl applyOp L

/-- In how many of the three classification sets the identifier appears. -/
def memCount (L : Ledger) (u : String) : Nat :=
  (if u ∈ L.processed then 1 else 0) +
  (if u ∈ L.nullcon then 1 else 0) +
  (if u ∈ L.genfail then 1 else 0)

/-- The per-job pipeline status of App (app.py line 44). -/
inductive Status
  | PENDING
  | HALTED
  | FAILED
  | COMPLETED
deriving DecidableEq, Repr

/-- A content item with its per-item success flag (the integrity check of
App.start_download consults only this flag). -/
structure Chapter where
  id : Nat
  success : Bool
deriving DecidableEq, Repr

/-- The status App.start_download leaves in novel_status (app.py lines
240-261).  haltedMid records that novel_status became HALTED during the fetch
loop, so the generator returned early with status HALTED; haltedLate records
that it became HALTED between the last fetch and the integrity check.  With
neither, a failed chapter gives FAILED, otherwise COMPLETED (a late halt with
all chapters successful is overwritten to COMPLETED by line 261). -/
def startDownloadStatus (chs : List Chapter) (haltedMid haltedLate : Bool) : Status :=
  if haltedMid then Status.HALTED
  else if chs.any (fun c => !c.success) then
    (if haltedLate then Status.HALTED else Status.FAILED)
  else Status.COMPLETED

/-- App.bind_books (app.py lines 276-328) with pack_by_volume false, as the
bot configures it: yields nothing unless novel_status is COMPLETED, yields
nothing on an empty chapter list, and otherwise yields the artifacts that the
external generate_books collaborator (gen) produces for the single group. -/
def bind_books (st : Status) (chs : List Chapter)
    (gen : List Chapter → List String) : List String :=
  if st = Status.COMPLETED then
    if chs.isEmpty then [] else gen chs
  else []

/-- scrape_logic_worker (bot.py lines 80-150) from the point where the chapter
list is known.  haltObserved records whether the in-loop halt check of the
worker (line 129) fired before the generator stopped; bindIndexErr records
that generate_books raised an IndexError during binding, which the worker
re-raises as the fixed message (lines 140-143).  The result is the returned
artifact path, none when bind_books yielded nothing, or the raised message. -/
def scrape_logic_worker (chs : List Chapter)
    (haltedMid haltObserved haltedLate bindIndexErr : Bool)
    (gen : List Chapter → List String) : Except String (Option String) :=
  if chs.isEmpty then Except.error "No chapters extracted"
  else if haltedMid && haltObserved then Except.error "HALTED: HALTED"
  else if startDownloadStatus chs haltedMid haltedLate ≠ Status.COMPLETED then
    Except.error "Download completed with FAILED status."
  else if bindIndexErr then Except.error "IndexError during binding"
  else
    match bind_books (startDownloadStatus chs haltedMid haltedLate) chs gen with
    | [] => Except.ok none
    | f :: _ => Except.ok (some f)

/-- Bool: the worker run produced an artifact path. -/
def producedArtifact : Except String (Option String) → Bool
  | Except.ok (some _) => true
  | _ => false

/-- Bool: the worker run raised an exception. -/
def workerFailed : Except String (Option String) → Bool
  | Except.error _ => true
  | _ => false

/-- Which delivery transport NovelBot.process_novel engaged for a produced
artifact: the primary bot transport, the secondary userbot transport, the
hard-limit rejection (no transport attempted), or no delivery at all. -/
inductive Route
  | primaryT
  | userbotT
  | hardLimit
  | noneT
deriving DecidableEq, Repr

/-- The delivery-relevant environment of one NovelBot.process_novel call:
whether the returned artifact path exists on disk, its size in bytes, whether
the userbot is connected, and the outcomes of the two transports (the userbot
outcome covers the whole hand-off including the 600 second wait_for, so a
timeout is a userbot failure). -/
structure DeliveryEnv where
  fileExists : Bool
  sizeBytes : Nat
  userbotAvailable : Bool
  userbotOk : Bool
  userbotErrMsg : String
  primaryOk : Bool
  primaryErrMsg : String

/-- The observable result of one NovelBot.process_novel call: the new ledger,
whether the local artifact file is still on disk afterwards, and which
delivery route was engaged. -/
structure SupResult where
  ledger : Ledger
  artifactRemains : Bool
  route : Route

/-- NovelBot.process_novel (bot.py lines 488-538) after the worker future
resolved.  file_size_mb is sizeBytes / 1048576, so the comparison
file_size_mb > 40.0 is sizeBytes > 40 * 1048576 and file_size_mb >= 50 is
sizeBytes >= 50 * 1048576 (both divisions by a power of two are exact in
floating point).  os.remove at line 525 runs after the whole if/else of the
delivery block, including after the caught userbot failure and after the
hard-limit rejection; only a primary-transport exception skips it, because it
propagates to the outer except clause (lines 531-538) which classifies by
substring or, failing that, only logs. -/
def process_novel (L : Ledger) (url : String)
    (wr : Except String (Option String)) (env : DeliveryEnv) : SupResult :=
  match wr with
  | Except.error e =>
      if isNullconMsg e then
        { ledger := addNullcon L url, artifactRemains := false, route := Route.noneT }
      else
        { ledger := L, artifactRemains := false, route := Route.noneT }
  | Except.ok none =>
      { ledger := addGenfail L url, artifactRemains := false, route := Route.noneT }
  | Except.ok (some _) =>
      if env.fileExists then
        if decide (40 * 1048576 < env.sizeBytes) && env.userbotAvailable then
          if env.userbotOk then
            { ledger := save_success L url, artifactRemains := false,
              route := Route.userbotT }
          else
            { ledger := save_error L url
                ("Userbot Upload Failed: " ++ env.userbotErrMsg),
              artifactRemains := false, route := Route.userbotT }
        else
          if decide (50 * 1048576 ≤ env.sizeBytes)
              && decide (40 * 1048576 < env.sizeBytes) then
            { ledger := save_error L url "File > 50MB & No Userbot",
              artifactRemains := false, route := Route.hardLimit }
          else
            if env.primaryOk then
              { ledger := save_success L url, artifactRemains := false,
                route := Route.primaryT }
            else
              if isNullconMsg env.primaryErrMsg then
                { ledger := addNullcon L url, artifactRemains := true,
                  route := Route.primaryT }
              else
                { ledger := L, artifactRemains := true, route := Route.primaryT }
      else
        { ledger := addGenfail L url, artifactRemains := false, route := Route.noneT }

/-- One full supervised job: run the worker and hand its outcome to
process_novel, as NovelBot.process_novel does around the executor future. -/
def runJob (L : Ledger) (url : String) (chs : List Chapter)
    (haltedMid haltObserved haltedLate bindIndexErr : Bool)
    (gen : List Chapter → List String) (env : DeliveryEnv) : SupResult :=
  process_novel L url
    (scrape_logic_worker chs haltedMid haltObserved haltedLate bindIndexErr gen) env

/-- The skip test of NovelBot.process_queue (bot.py line 443). -/
def shouldSkip (L : Ledger) (u : String) : Bool :=
  decide (u ∈ L.processed) || decide (u ∈ L.nullcon) || decide (u ∈ L.genfail)

/-- The filter loop of NovelBot.process_queue (bot.py lines 439-446): the
remaining list to process, and the skipped count. -/
def partitionQueue (L : Ledger) : List String → List String × Nat
  | [] => ([], 0)
  | u :: rest =>
      let r := partitionQueue L rest
      if shouldSkip L u then (r.1, r.2 + 1) else (u :: r.1, r.2)

/-- The dispatch loop of NovelBot.process_queue (bot.py lines 455-457): walk
the remaining list, skip a url already in processed, otherwise dispatch it and
let the job (abstracted as step) transform the ledger.  Returns the final
ledger and the list of dispatched urls in order. -/
def runBatch (step : String → Ledger → Ledger) :
    Ledger → List String → Ledger × List String
  | L, [] => (L, [])
  | L, u :: rest =>
      if u ∈ L.processed then runBatch step L rest
      else
        let r := runBatch step (step u L) rest
        (r.1, u :: r.2)

/-- The full NovelBot state touched by cmd_reset: the ledger, the in-memory
nwerror set, and the persisted files keyed by name (none means the file does
not exist on disk). -/
structure BotState where
  ledger : Ledger
  nwerror : Finset String
  processedFile : Option (List String)
  errorsFile : Option (List (String × String))
  nullconFile : Option (List String)
  genfailFile : Option (List String)
  nwerrorFile : Option (List String)
  queueFile : Option (List String)

/-- NovelBot.cmd_reset (bot.py lines 377-384): empty the processed, nullcon,
genfail and nwerror sets and delete the corresponding files plus the queue
file.  The in-memory errors map and the errors file are not touched. -/
def cmd_reset (s : BotState) : BotState :=
  { ledger := { processed := ∅, nullcon := ∅, genfail := ∅,
                errors := s.ledger.errors },
    nwerror := ∅,
    processedFile := none,
    errorsFile := s.errorsFile,
    nullconFile := none,
    genfailFile := none,
    nwerrorFile := none,
    queueFile := none }

/-- The skipped counter of partitionQueue counts exactly the urls that the
skip test accepts, occurrence by occurrence. -/
theorem partitionQueue_count (L : Ledger) (urls : List String) :
    (partitionQueue L urls).2 = urls.countP (shouldSkip L) := by
  induction urls with
  | nil => rfl
  | cons u rest ih =>
      cases h : shouldSkip L u <;>
        simp [partitionQueue, List.countP_cons, h, ih]

/-- Every url surviving the filter of partitionQueue fails the skip test. -/
theorem partitionQueue_mem (L : Ledger) (urls : List String) (u : String)
    (hu : u ∈ (partitionQueue L urls).1) : shouldSkip L u = false := by
  induction urls with
  | nil => simp [partitionQueue] at hu
  | cons v rest ih =>
      cases h : shouldSkip L v <;> simp [partitionQueue, h] at hu
      · rcases hu with hu | hu
        · exact hu ▸ h
        · exact ih hu
      · exact ih hu

/-- Every dispatched url comes from the input list of the dispatch loop. -/
theorem runBatch_mem (step : String → Ledger → Ledger) (L : Ledger)
    (urls : List String) (u : String)
    (hu : u ∈ (runBatch step L urls).2) : u ∈ urls := by
  induction urls generalizing L with
  | nil => simp [runBatch] at hu
  | cons v rest ih =>
      by_cases hv : v ∈ L.processed
      · simp [runBatch, hv] at hu
        exact List.mem_cons_of_mem v (ih L hu)
      · simp [runBatch, hv] at hu
        rcases hu with hu | hu
        · exact hu ▸ List.mem_cons_self v rest
        · exact List.mem_cons_of_mem v (ih (step v L) hu)

/-- A url already in processed is never dispatched by the dispatch loop,
provided every job step preserves membership in processed. -/
theorem runBatch_no_redispatch (step : String → Ledger → Ledger)
    (hmono : ∀ v u M, u ∈ M.processed → u ∈ (step v M).processed)
    (L : Ledger) (urls : List String) (u : String) (h : u ∈ L.processed) :
    ((runBatch step L urls).2).count u = 0 := by
  induction urls generalizing L with
  | nil => rfl
  | cons v rest ih =>
      by_cases hv : v ∈ L.processed
      · simp only [runBatch, if_pos hv]
        exact ih L h
      · have hvu : u ≠ v := fun he => hv (he ▸ h)
        simp only [runBatch, if_neg hv, List.count_cons]
        rw [ih (step v L) (hmono v u L h)]
        simp [Ne.symm hvu]

/-- Claim C1, counterexample: after save_success of "u" followed by the
no-content classification of "u", the identifier is in two of the three sets
at once, and a no-content classification after a recorded error leaves the
last_error entry in place, so the claimed invariant over arbitrary sequences
of the three ledger operations is false. -/
theorem C1_counterexample :
    memCount (applyOps emptyLedger
      [LedgerOp.success "u", LedgerOp.nocontent "u"]) "u" = 2 ∧
    (applyOps (save_error emptyLedger "u" "boom")
      [LedgerOp.nocontent "u"]).errors "u" = some "boom" := by
  exact ⟨by decide, by decide⟩

/-- Claim C1, amended: save_success leaves the identifier in exactly one set
(reaching processed removes it from nullcon and genfail) and clears its
last_error entry; the no-content and generation-failed classifications only
add the identifier to their own set and leave the other two sets and the
errors map unchanged, so they do not by themselves restore exclusivity. -/
theorem C1_amended (L : Ledger) (u : String) :
    memCount (save_success L u) u = 1 ∧
    (save_success L u).errors u = none ∧
    (addNullcon L u).processed = L.processed ∧
    (addNullcon L u).genfail = L.genfail ∧
    (addNullcon L u).errors = L.errors ∧
    u ∈ (addNullcon L u).nullcon ∧
    (addGenfail L u).processed = L.processed ∧
    (addGenfail L u).nullcon = L.nullcon ∧
    (addGenfail L u).errors = L.errors ∧
    u ∈ (addGenfail L u).genfail := by
  refine ⟨?_, ?_, rfl, rfl, rfl, ?_, rfl, rfl, rfl, ?_⟩
  · simp [memCount, save_success]
  · simp [save_success]
  · simp [addNullcon]
  · simp [addGenfail]

/-- Claim C2 (confirmed): when some chapter failed, the pipeline status is
never COMPLETED (it is FAILED unless a halt intervened), bind_books on that
status yields nothing, and the worker produces no artifact. -/
theorem C2_integrity_gate (chs : List Chapter) (hm hObs hl bindIE : Bool)
    (gen : List Chapter → List String)
    (hfail : chs.any (fun c => !c.success) = true) :
    startDownloadStatus chs hm hl ≠ Status.COMPLETED ∧
    (hm = false → hl = false →
      startDownloadStatus chs hm hl = Status.FAILED) ∧
    bind_books (startDownloadStatus chs hm hl) chs gen = [] ∧
    producedArtifact
      (scrape_logic_worker chs hm hObs hl bindIE gen) = false := by
  have hne : chs.isEmpty = false := by
    cases chs with
    | nil => simp at hfail
    | cons a as => rfl
  have hst : startDownloadStatus chs hm hl ≠ Status.COMPLETED := by
    unfold startDownloadStatus
    rw [hfail]
    cases hm <;> cases hl <;> simp
  refine ⟨hst, ?_, ?_, ?_⟩
  · intro h1 h2
    subst h1; subst h2
    unfold startDownloadStatus
    rw [hfail]
    simp
  · unfold bind_books
    rw [if_neg hst]
  · unfold scrape_logic_worker
    rw [hne]
    simp only [Bool.false_eq_true, if_false]
    cases hb : hm && hObs
    · simp only [Bool.false_eq_true, if_false]
      rw [if_pos hst]
      rfl
    · simp only [if_true]
      rfl

/-- Claim C2 witness: a single failed chapter, no halt, concrete inputs. -/
theorem C2_integrity_gate_witness :
    startDownloadStatus [Chapter.mk 1 false] false false ≠ Status.COMPLETED ∧
    (false = false → false = false →
      startDownloadStatus [Chapter.mk 1 false] false false = Status.FAILED) ∧
    bind_books (startDownloadStatus [Chapter.mk 1 false] false false)
      [Chapter.mk 1 false] (fun _ => ["a.epub"]) = [] ∧
    producedArtifact
      (scrape_logic_worker [Chapter.mk 1 false] false false false false
        (fun _ => ["a.epub"])) = false :=
  C2_integrity_gate [Chapter.mk 1 false] false false false false
    (fun _ => ["a.epub"]) (by decide)

/-- Claim C5 (confirmed): any url in processed, nullcon or genfail is counted
as skipped by the batch filter, does not survive the filter, and is never
dispatched by the dispatch loop, for any job behaviour. -/
theorem C5_idempotent_skip (L : Ledger) (urls : List String)
    (step : String → Ledger → Ledger) (u : String)
    (h : shouldSkip L u = true) :
    (partitionQueue L urls).2 = urls.countP (shouldSkip L) ∧
    u ∉ (partitionQueue L urls).1 ∧
    u ∉ (runBatch step L (partitionQueue L urls).1).2 := by
  refine ⟨partitionQueue_count L urls, ?_, ?_⟩
  · intro hu
    rw [partitionQueue_mem L urls u hu] at h
    exact Bool.false_ne_true h
  · intro hu
    have hm := runBatch_mem step L _ u hu
    rw [partitionQueue_mem L urls u hm] at h
    exact Bool.false_ne_true h

/-- Claim C5 witness: the ledger already holds "a" in processed; resubmitting
a batch containing "a" skips and never dispatches it. -/
theorem C5_idempotent_skip_witness :
    (partitionQueue ⟨{"a"}, ∅, ∅, fun _ => none⟩ ["a", "b"]).2
      = (["a", "b"] : List String).countP
          (shouldSkip ⟨{"a"}, ∅, ∅, fun _ => none⟩) ∧
    "a" ∉ (partitionQueue ⟨{"a"}, ∅, ∅, fun _ => none⟩ ["a", "b"]).1 ∧
    "a" ∉ (runBatch (fun v M => save_success M v) ⟨{"a"}, ∅, ∅, fun _ => none⟩
      (partitionQueue ⟨{"a"}, ∅, ∅, fun _ => none⟩ ["a", "b"]).1).2 :=
  C5_idempotent_skip ⟨{"a"}, ∅, ∅, fun _ => none⟩ ["a", "b"]
    (fun v M => save_success M v) "a" (by decide)

/-- Claim C3, counterexample: a 48 MB artifact whose userbot hand-off fails
(for example on timeout) has its last_error recorded as a delivery failure,
yet the local artifact file is removed afterwards, because the removal at the
end of the delivery block runs after the handled userbot failure; so the claim
that no delivery failure deletes the artifact is false. -/
theorem C3_counterexample :
    (process_novel emptyLedger "u" (Except.ok (some "b.epub"))
      ⟨true, 50331648, true, false, "Timeout", true, ""⟩).route
        = Route.userbotT ∧
    (process_novel emptyLedger "u" (Except.ok (some "b.epub"))
      ⟨true, 50331648, true, false, "Timeout", true, ""⟩).ledger.errors "u"
        = some "Userbot Upload Failed: Timeout" ∧
    (process_novel emptyLedger "u" (Except.ok (some "b.epub"))
      ⟨true, 50331648, true, false, "Timeout", true, ""⟩).artifactRemains
        = false := by
  exact ⟨by decide, by decide, by decide⟩

/-- Claim C3, amended: only a primary-transport send failure preserves the
local artifact (the exception skips the removal); after a userbot hand-off
failure or timeout, and after a hard-limit rejection with no userbot, the
artifact file is removed even though last_error is recorded. -/
theorem C3_amended (L : Ledger) (url p : String) (env : DeliveryEnv) :
    (env.fileExists = true → 40 * 1048576 < env.sizeBytes →
      env.userbotAvailable = true → env.userbotOk = false →
      (process_novel L url (Except.ok (some p)) env).artifactRemains = false) ∧
    (env.fileExists = true → env.userbotAvailable = false →
      50 * 1048576 ≤ env.sizeBytes →
      ((process_novel L url (Except.ok (some p)) env).artifactRemains = false ∧
       (process_novel L url (Except.ok (some p)) env).ledger.errors url
         = some "File > 50MB & No Userbot")) ∧
    (env.fileExists = true → env.sizeBytes ≤ 40 * 1048576 →
      env.primaryOk = false →
      (process_novel L url (Except.ok (some p)) env).artifactRemains = true) := by
  refine ⟨?_, ?_, ?_⟩
  · intro h1 h2 h3 h4
    simp [process_novel, h1, h2, h3, h4]
  · intro h1 h2 h3
    have h4 : 40 * 1048576 < env.sizeBytes := lt_of_lt_of_le (by norm_num) h3
    constructor <;> simp [process_novel, h1, h2, h3, h4, save_error]
  · intro h1 h2 h3
    have h4 : ¬(40 * 1048576 < env.sizeBytes) := Nat.not_lt.mpr h2
    cases hc : isNullconMsg env.primaryErrMsg <;>
      simp [process_novel, h1, h3, h4, hc]

/-- Claim C3 witness: a small artifact whose primary send fails is preserved
on disk. -/
theorem C3_amended_witness :
    (process_novel emptyLedger "u" (Except.ok (some "s.epub"))
      ⟨true, 1048576, false, false, "", false, "network unreachable"⟩
      ).artifactRemains = true :=
  (C3_amended emptyLedger "u" "s.epub"
      ⟨true, 1048576, false, false, "", false, "network unreachable"⟩).2.2
    rfl (by norm_num) rfl

/-- Claim C4, counterexample: a worker exception not matching the null-content
substrings leaves the errors map empty, so the supervisor does not record
last_error for a transient error; the claim that it records the message is
false. -/
theorem C4_counterexample :
    isNullconMsg "Connection reset by peer" = false ∧
    (process_novel emptyLedger "u"
      (Except.error "Connection reset by peer")
      ⟨false, 0, false, false, "", false, ""⟩).ledger.errors "u" = none := by
  exact ⟨by decide, by decide⟩

/-- Claim C4, amended: on a transient error (an exception whose message does
not match the null-content substrings) the supervisor leaves the ledger
completely unchanged: the identifier is added to none of the three sets and
its last_error entry is not written (the message is only sent to the log
channel), so the identifier remains eligible for a future batch. -/
theorem C4_amended (L : Ledger) (url e : String) (env : DeliveryEnv)
    (h : isNullconMsg e = false) :
    (process_novel L url (Except.error e) env).ledger = L ∧
    (process_novel L url (Except.error e) env).artifactRemains = false ∧
    shouldSkip (process_novel L url (Except.error e) env).ledger url
      = shouldSkip L url := by
  simp [process_novel, h]

/-- Claim C4 witness: a concrete transient error on the empty ledger. -/
theorem C4_amended_witness :
    (process_novel emptyLedger "u" (Except.error "Connection timed out")
      ⟨false, 0, false, false, "", false, ""⟩).ledger = emptyLedger ∧
    (process_novel emptyLedger "u" (Except.error "Connection timed out")
      ⟨false, 0, false, false, "", false, ""⟩).artifactRemains = false ∧
    shouldSkip (process_novel emptyLedger "u"
      (Except.error "Connection timed out")
      ⟨false, 0, false, false, "", false, ""⟩).ledger "u"
      = shouldSkip emptyLedger "u" :=
  C4_amended emptyLedger "u" "Connection timed out"
    ⟨false, 0, false, false, "", false, ""⟩ (by decide)

/-- Claim C6, counterexample: an artifact of exactly 40 MB (41943040 bytes is
exactly the configured 40.0 threshold in megabytes) with the userbot available
is routed to the primary transport, because the code compares with strict
greater-than; the claim that a file at the threshold uses the secondary
transport is false. -/
theorem C6_counterexample :
    41943040 = 40 * 1048576 ∧
    (process_novel emptyLedger "u" (Except.ok (some "f.epub"))
      ⟨true, 41943040, true, true, "", true, ""⟩).route = Route.primaryT ∧
    Route.primaryT ≠ Route.userbotT := by
  exact ⟨by norm_num, by decide, by decide⟩

/-- Claim C6, amended: an artifact at or below the threshold is sent via the
primary transport only; one strictly above the threshold with the userbot
available is sent via the secondary transport; and when the secondary hand-off
fails (including the 600 second timeout) the last_error entry is set and the
processed set is unchanged, so the identifier is not marked completed. -/
theorem C6_amended (L : Ledger) (url p : String) (env : DeliveryEnv) :
    (env.fileExists = true → env.sizeBytes ≤ 40 * 1048576 →
      (process_novel L url (Except.ok (some p)) env).route = Route.primaryT) ∧
    (env.fileExists = true → 40 * 1048576 < env.sizeBytes →
      env.userbotAvailable = true →
      (process_novel L url (Except.ok (some p)) env).route = Route.userbotT) ∧
    (env.fileExists = true → 40 * 1048576 < env.sizeBytes →
      env.userbotAvailable = true → env.userbotOk = false →
      ((process_novel L url (Except.ok (some p)) env).ledger.errors url
          = some ("Userbot Upload Failed: " ++ env.userbotErrMsg) ∧
       (process_novel L url (Except.ok (some p)) env).ledger.processed
          = L.processed)) := by
  refine ⟨?_, ?_, ?_⟩
  · intro h1 h2
    have h3 : ¬(40 * 1048576 < env.sizeBytes) := Nat.not_lt.mpr h2
    cases h4 : env.primaryOk
    · cases hc : isNullconMsg env.primaryErrMsg <;>
        simp [process_novel, h1, h3, h4, hc]
    · simp [process_novel, h1, h3, h4]
  · intro h1 h2 h3
    cases h4 : env.userbotOk <;> simp [process_novel, h1, h2, h3, h4]
  · intro h1 h2 h3 h4
    constructor <;> simp [process_novel, h1, h2, h3, h4, save_error]

/-- Claim C6 witness: a 1 MB artifact routes primary; a 48 MB artifact with
the userbot routes secondary, and on hand-off failure the error is recorded
while processed stays unchanged. -/
theorem C6_amended_witness :
    (process_novel emptyLedger "u" (Except.ok (some "f.epub"))
      ⟨true, 1048576, true, true, "", true, ""⟩).route = Route.primaryT ∧
    (process_novel emptyLedger "u" (Except.ok (some "f.epub"))
      ⟨true, 50331648, true, false, "Timeout", true, ""⟩).route
        = Route.userbotT ∧
    (process_novel emptyLedger "u" (Except.ok (some "f.epub"))
      ⟨true, 50331648, true, false, "Timeout", true, ""⟩).ledger.errors "u"
        = some ("Userbot Upload Failed: " ++ "Timeout") ∧
    (process_novel emptyLedger "u" (Except.ok (some "f.epub"))
      ⟨true, 50331648, true, false, "Timeout", true, ""⟩).ledger.processed
        = emptyLedger.processed :=
  ⟨(C6_amended emptyLedger "u" "f.epub"
      ⟨true, 1048576, true, true, "", true, ""⟩).1 rfl (by norm_num),
   (C6_amended emptyLedger "u" "f.epub"
      ⟨true, 50331648, true, false, "Timeout", true, ""⟩).2.1
      rfl (by norm_num) rfl,
   ((C6_amended emptyLedger "u" "f.epub"
      ⟨true, 50331648, true, false, "Timeout", true, ""⟩).2.2
      rfl (by norm_num) rfl rfl).1,
   ((C6_amended emptyLedger "u" "f.epub"
      ⟨true, 50331648, true, false, "Timeout", true, ""⟩).2.2
      rfl (by norm_num) rfl rfl).2⟩

/-- Claim C7 (confirmed): when the halt signal is raised mid-fetch, the worker
raises (whether or not its own in-loop check observes the halt), no artifact
is produced, and the supervisor leaves the ledger completely unchanged — the
halt message matches no classifier substring, and the transient branch writes
nothing — with no artifact file left behind. -/
theorem C7_halt_safety (chs : List Chapter) (hObs hl bindIE : Bool)
    (gen : List Chapter → List String) (L : Ledger) (url : String)
    (env : DeliveryEnv) (hne : chs.isEmpty = false) :
    workerFailed (scrape_logic_worker chs true hObs hl bindIE gen) = true ∧
    producedArtifact (scrape_logic_worker chs true hObs hl bindIE gen) = false ∧
    (runJob L url chs true hObs hl bindIE gen env).ledger = L ∧
    (runJob L url chs true hObs hl bindIE gen env).artifactRemains = false := by
  cases hObs with
  | true =>
      have hw : scrape_logic_worker chs true true hl bindIE gen
          = Except.error "HALTED: HALTED" := by
        simp [scrape_logic_worker, hne]
      have hcl : isNullconMsg "HALTED: HALTED" = false := by decide
      refine ⟨by rw [hw]; rfl, by rw [hw]; rfl, ?_, ?_⟩ <;>
        simp [runJob, hw, process_novel, hcl]
  | false =>
      have hw : scrape_logic_worker chs true false hl bindIE gen
          = Except.error "Download completed with FAILED status." := by
        simp [scrape_logic_worker, hne, startDownloadStatus]
      have hcl : isNullconMsg "Download completed with FAILED status."
          = false := by decide
      refine ⟨by rw [hw]; rfl, by rw [hw]; rfl, ?_, ?_⟩ <;>
        simp [runJob, hw, process_novel, hcl]

/-- Claim C7 witness: one successfully fetched chapter, halt observed by the
in-loop check, concrete supervisor state. -/
theorem C7_halt_safety_witness :
    workerFailed (scrape_logic_worker [Chapter.mk 1 true] true true false false
      (fun _ => ["a.epub"])) = true ∧
    producedArtifact (scrape_logic_worker [Chapter.mk 1 true] true true false
      false (fun _ => ["a.epub"])) = false ∧
    (runJob emptyLedger "u" [Chapter.mk 1 true] true true false false
      (fun _ => ["a.epub"]) ⟨false, 0, false, false, "", false, ""⟩).ledger
      = emptyLedger ∧
    (runJob emptyLedger "u" [Chapter.mk 1 true] true true false false
      (fun _ => ["a.epub"])
      ⟨false, 0, false, false, "", false, ""⟩).artifactRemains = false :=
  C7_halt_safety [Chapter.mk 1 true] true false false (fun _ => ["a.epub"])
    emptyLedger "u" ⟨false, 0, false, false, "", false, ""⟩ (by decide)

/-- Claim C8, counterexample: the batch ["x", "x"] passes the initial filter
with both occurrences when "x" is in no ledger set, and when the first attempt
ends in the no-content classification the dispatch loop — which re-checks only
the processed set — dispatches "x" a second time; so the claim that a
duplicated identifier is dispatched at most once regardless of how its first
attempt terminates is false. -/
theorem C8_counterexample :
    ((runBatch (fun v M => addNullcon M v) emptyLedger ["x", "x"]).2).count "x"
      = 2 ∧
    ¬(((runBatch (fun v M => addNullcon M v) emptyLedger
        ["x", "x"]).2).count "x" ≤ 1) := by
  exact ⟨by decide, by decide⟩

/-- Claim C8, amended: the dispatch loop skips a url already in processed, so
when every attempt ends in success (the job step always puts its url into
processed) and no step removes a url from processed, each identifier is
dispatched at most once per batch pass, however often it occurs. -/
theorem C8_amended (step : String → Ledger → Ledger)
    (hmono : ∀ v u M, u ∈ M.processed → u ∈ (step v M).processed)
    (hself : ∀ u M, u ∈ (step u M).processed)
    (L : Ledger) (urls : List String) (u : String) :
    ((runBatch step L urls).2).count u ≤ 1 := by
  induction urls generalizing L with
  | nil => simp [runBatch]
  | cons v rest ih =>
      by_cases hv : v ∈ L.processed
      · simp only [runBatch, if_pos hv]
        exact ih L
      · by_cases huv : u = v
        · subst huv
          simp only [runBatch, if_neg hv, List.count_cons]
          rw [runBatch_no_redispatch step hmono (step u L) rest u (hself u L)]
          simp
        · have hvu : v ≠ u := fun he => huv he.symm
          simp only [runBatch, if_neg hv, List.count_cons]
          rw [if_neg (by simp [hvu])]
          simpa using ih (step v L)

/-- Claim C8 witness: with every attempt ending in save_success, the
duplicated batch ["x", "x"] dispatches "x" at most once. -/
theorem C8_amended_witness :
    ((runBatch (fun v M => save_success M v) emptyLedger
      ["x", "x"]).2).count "x" ≤ 1 :=
  C8_amended (fun v M => save_success M v)
    (fun _ _ _ h => Finset.mem_insert_of_mem h)
    (fun u M => Finset.mem_insert_self u M.processed)
    emptyLedger ["x", "x"] "x"

/-- Claim C9 (confirmed): cmd_reset empties the processed, nullcon and genfail
sets, deletes their persisted files and the persisted queue file, and leaves
both the in-memory errors map and the persisted errors file unchanged. -/
theorem C9_reset_frame (s : BotState) :
    (cmd_reset s).ledger.processed = ∅ ∧
    (cmd_reset s).ledger.nullcon = ∅ ∧
    (cmd_reset s).ledger.genfail = ∅ ∧
    (cmd_reset s).processedFile = none ∧
    (cmd_reset s).nullconFile = none ∧
    (cmd_reset s).genfailFile = none ∧
    (cmd_reset s).queueFile = none ∧
    (cmd_reset s).ledger.errors = s.ledger.errors ∧
    (cmd_reset s).errorsFile = s.errorsFile := by
  exact ⟨rfl, rfl, rfl, rfl, rfl, rfl, rfl, rfl, rfl⟩

/-- Claim C10 (confirmed): when binding raises an IndexError on a fully
fetched novel, the worker re-raises the fixed message, the classifier matches
it through the IndexError substring, and the supervisor adds the identifier to
nullcon while leaving genfail unchanged. -/
theorem C10_index_error_binding (chs : List Chapter)
    (gen : List Chapter → List String) (L : Ledger) (url : String)
    (env : DeliveryEnv) (hne : chs.isEmpty = false)
    (hok : chs.any (fun c => !c.success) = false) :
    scrape_logic_worker chs false false false true gen
      = Except.error "IndexError during binding" ∧
    strContains "IndexError during binding" "IndexError" = true ∧
    isNullconMsg "IndexError during binding" = true ∧
    (runJob L url chs false false false true gen env).ledger
      = addNullcon L url ∧
    url ∈ (runJob L url chs false false false true gen env).ledger.nullcon ∧
    (runJob L url chs false false false true gen env).ledger.genfail
      = L.genfail := by
  have hst : startDownloadStatus chs false false = Status.COMPLETED := by
    simp [startDownloadStatus, hok]
  have hw : scrape_logic_worker chs false false false true gen
      = Except.error "IndexError during binding" := by
    simp [scrape_logic_worker, hne, hst]
  have hcl : isNullconMsg "IndexError during binding" = true := by decide
  refine ⟨hw, by decide, hcl, ?_, ?_, ?_⟩ <;>
    simp [runJob, hw, process_novel, hcl, addNullcon]

/-- Claim C10 witness: one successful chapter, binding raises IndexError,
concrete supervisor state. -/
theorem C10_index_error_binding_witness :
    scrape_logic_worker [Chapter.mk 1 true] false false false true
      (fun _ => ["a.epub"]) = Except.error "IndexError during binding" ∧
    strContains "IndexError during binding" "IndexError" = true ∧
    isNullconMsg "IndexError during binding" = true ∧
    (runJob emptyLedger "u" [Chapter.mk 1 true] false false false true
      (fun _ => ["a.epub"]) ⟨false, 0, false, false, "", false, ""⟩).ledger
      = addNullcon emptyLedger "u" ∧
    "u" ∈ (runJob emptyLedger "u" [Chapter.mk 1 true] false false false true
      (fun _ => ["a.epub"])
      ⟨false, 0, false, false, "", false, ""⟩).ledger.nullcon ∧
    (runJob emptyLedger "u" [Chapter.mk 1 true] false false false true
      (fun _ => ["a.epub"])
      ⟨false, 0, false, false, "", false, ""⟩).ledger.genfail
      = emptyLedger.genfail :=
  C10_index_error_binding [Chapter.mk 1 true] (fun _ => ["a.epub"])
    emptyLedger "u" ⟨false, 0, false, false, "", false, ""⟩
    (by decide) (by decide)

end Bot
